import Mathlib

/-!
Shallow embedding of `src/streamlit_app.py` (partnership-simulator).

The numeric core is `two_stage_valuation` (a two-stage DCF with mid-year
discounting and a Gordon-growth terminal value), plus three caller-side
computations: `share_value`, `balance_due`, and the illustrative
future-valuation series built in the chart section (`val_series`).

Python floats are modelled as real numbers; the fractional power
`(1 + wacc) ** (n - 0.5)` is modelled by `Real.rpow`.  Python runtime
exceptions are modelled by `Except PyErr`: `fcfs[-1]` on an empty list
raises `IndexError`, and float division by zero raises
`ZeroDivisionError`; these are the only two failure points of
`two_stage_valuation`, which performs no input validation of its own.
-/

namespace PartnershipSim

/-- Runtime exceptions that `two_stage_valuation` can raise. -/
inductive PyErr where
  | indexError
  | zeroDivisionError
deriving DecidableEq

/-- The list `fcfs` built by the loop in `two_stage_valuation`
(`streamlit_app.py` lines 36-39): entry for year `n = k + 1` is
`fcf1 * (1 + g1) ** (n - 1)`. -/
noncomputable def fcfs_list (fcf1 g1 : ℝ) (years1 : ℤ) : List ℝ :=
  (List.range years1.toNat).map fun k => fcf1 * (1 + g1) ^ k

/-- The list `pv_fcfs` built by the same loop (line 38): entry for year
`n = k + 1` is `fcf_n / (1 + wacc) ** (n - 0.5)` (mid-year discounting). -/
noncomputable def pv_list (fcf1 g1 wacc : ℝ) (years1 : ℤ) : List ℝ :=
  (List.range years1.toNat).map fun (k : ℕ) =>
    fcf1 * (1 + g1) ^ k / (1 + wacc) ^ ((k : ℝ) + 1 - 0.5)

/-- `two_stage_valuation(fcf1, g1, years1, g2, wacc)` from
`streamlit_app.py` lines 20-49.  Returns `(ev, fcfs, pv_fcfs, pv_tv)` on
success.  `fcfs[-1]` on the empty list (when `years1 < 1`) raises
`IndexError`; the division by `wacc - g2` raises `ZeroDivisionError`
when `wacc == g2`.  The Python code evaluates `fcfs[-1]` before the
division, so `IndexError` wins when both would fire. -/
noncomputable def two_stage_valuation (fcf1 g1 : ℝ) (years1 : ℤ) (g2 wacc : ℝ) :
    Except PyErr (ℝ × List ℝ × List ℝ × ℝ) :=
  match (fcfs_list fcf1 g1 years1).getLast? with
  | none => .error .indexError
  | some last =>
    if wacc - g2 = 0 then .error .zeroDivisionError
    else
      let fcf_last := last * (1 + g1)
      let tv := fcf_last * (1 + g2) / (wacc - g2)
      let pv_tv := tv / (1 + wacc) ^ ((years1 : ℝ) - 0.5)
      .ok ((pv_list fcf1 g1 wacc years1).sum + pv_tv,
           fcfs_list fcf1 g1 years1,
           pv_list fcf1 g1 wacc years1,
           pv_tv)

/-- `share_value = valuation_input * equity_pct / 100` (line 62). -/
noncomputable def share_value (valuation_input equity_pct : ℝ) : ℝ :=
  valuation_input * equity_pct / 100

/-- `balance_due = max(agreed_price - amount_paid, 0)` (line 71). -/
noncomputable def balance_due (agreed_price amount_paid : ℝ) : ℝ :=
  max (agreed_price - amount_paid) 0

/-- The running value `ev_curr` of the chart loop (lines 120-127) after
`n` iterations: seeded from `valuation_input` (NOT from the engine's
`ev`), multiplied by `1 + g1_pct/100` while `n <= years1` and by
`1 + g2_pct/100` afterwards. -/
noncomputable def val_at (v0 g1_pct g2_pct : ℝ) (years1 : ℤ) : ℕ → ℝ
  | 0 => v0
  | n + 1 => val_at v0 g1_pct g2_pct years1 n *
      (if (n : ℤ) + 1 ≤ years1 then 1 + g1_pct / 100 else 1 + g2_pct / 100)

/-- `val_series` from lines 120-127: one `(year, valuation)` entry per
`n` in `range(1, years1 + 6)`, i.e. `years1 + 5` entries. -/
noncomputable def val_series (v0 g1_pct g2_pct : ℝ) (years1 : ℤ) : List (ℕ × ℝ) :=
  (List.range (years1 + 5).toNat).map fun k =>
    (k + 1, val_at v0 g1_pct g2_pct years1 (k + 1))

lemma fcfs_list_length (fcf1 g1 : ℝ) (years1 : ℤ) :
    (fcfs_list fcf1 g1 years1).length = years1.toNat := by
  simp [fcfs_list]

lemma fcfs_list_getElem? (fcf1 g1 : ℝ) (years1 : ℤ) {k : ℕ}
    (hk : k < years1.toNat) :
    (fcfs_list fcf1 g1 years1)[k]? = some (fcf1 * (1 + g1) ^ k) := by
  simp [fcfs_list, List.getElem?_range hk]

lemma pv_list_getElem? (fcf1 g1 wacc : ℝ) (years1 : ℤ) {k : ℕ}
    (hk : k < years1.toNat) :
    (pv_list fcf1 g1 wacc years1)[k]? =
      some (fcf1 * (1 + g1) ^ k / (1 + wacc) ^ ((k : ℝ) + 1 - 0.5)) := by
  rw [pv_list, List.getElem?_map, List.getElem?_range hk, Option.map_some']

lemma fcfs_list_getLast? (fcf1 g1 : ℝ) {years1 : ℤ} (hy : 1 ≤ years1) :
    (fcfs_list fcf1 g1 years1).getLast? =
      some (fcf1 * (1 + g1) ^ (years1.toNat - 1)) := by
  rw [List.getLast?_eq_getElem?, fcfs_list_length]
  exact fcfs_list_getElem? fcf1 g1 years1 (by omega)

/-- On any input with `years1 >= 1` and `wacc ≠ g2`, the function runs to
completion and returns exactly the tuple built at line 49 of the source. -/
lemma two_stage_valuation_ok (fcf1 g1 : ℝ) {years1 : ℤ} (g2 wacc : ℝ)
    (hy : 1 ≤ years1) (hw : wacc - g2 ≠ 0) :
    two_stage_valuation fcf1 g1 years1 g2 wacc =
      .ok ((pv_list fcf1 g1 wacc years1).sum
            + fcf1 * (1 + g1) ^ (years1.toNat - 1) * (1 + g1) * (1 + g2) / (wacc - g2)
              / (1 + wacc) ^ ((years1 : ℝ) - 0.5),
           fcfs_list fcf1 g1 years1,
           pv_list fcf1 g1 wacc years1,
           fcf1 * (1 + g1) ^ (years1.toNat - 1) * (1 + g1) * (1 + g2) / (wacc - g2)
              / (1 + wacc) ^ ((years1 : ℝ) - 0.5)) := by
  rw [two_stage_valuation, fcfs_list_getLast? fcf1 g1 hy]
  simp [if_neg hw, mul_assoc, mul_comm, mul_left_comm]

/-- C1: the spec requires a structured `DivergentTerminalValue` failure for
`wacc == g2` and for `wacc < g2`; the code instead raises a bare
`ZeroDivisionError` when `wacc == g2` and, when `wacc < g2`, completes the
computation and silently returns a negative terminal value (here
`pv_tv = -200` with `ev = -100`). -/
theorem divergence_unguarded :
    two_stage_valuation 100 0 1 0.15 0.15 = .error .zeroDivisionError ∧
    two_stage_valuation 100 0 1 1 0 =
      .ok (-100, [100], [100], -200) := by
  constructor
  · simp [two_stage_valuation, fcfs_list, List.range_succ]
  · have h1 : ((1 : ℝ) + 0) ^ ((0 : ℝ) + 1 - 0.5) = 1 := by
      norm_num [Real.one_rpow]
    have h2 : ((1 : ℝ) + 0) ^ ((1 : ℤ) - 0.5 : ℝ) = 1 := by
      norm_num [Real.one_rpow]
    simp [two_stage_valuation, fcfs_list, pv_list, List.range_succ, h1, h2]
    norm_num

/-- C2: on valid inputs (`fcf1 >= 0`, `years1 >= 1`, `wacc > g2`) the
returned schedule lists satisfy `projectedFCF(n) = fcf1 * (1+g1)^(n-1)`
and `presentValue(n) = projectedFCF(n) / (1+wacc)^(n-0.5)` for every year
`n` in `1..years1`; in particular for `years1 = 1` the schedule is exactly
`[fcf1]` with present value `[fcf1 / (1+wacc)^0.5]`. -/
theorem schedule_entries_correct (fcf1 g1 : ℝ) (years1 : ℤ) (g2 wacc : ℝ)
    (hf : 0 ≤ fcf1) (hy : 1 ≤ years1) (hw : g2 < wacc) :
    (∀ n : ℕ, 1 ≤ n → (n : ℤ) ≤ years1 →
      (fcfs_list fcf1 g1 years1)[n - 1]? = some (fcf1 * (1 + g1) ^ (n - 1)) ∧
      (pv_list fcf1 g1 wacc years1)[n - 1]? =
        some (fcf1 * (1 + g1) ^ (n - 1) / (1 + wacc) ^ ((n : ℝ) - 0.5))) ∧
    (∃ ev pv_tv, two_stage_valuation fcf1 g1 years1 g2 wacc =
        .ok (ev, fcfs_list fcf1 g1 years1, pv_list fcf1 g1 wacc years1, pv_tv)) ∧
    (years1 = 1 →
      fcfs_list fcf1 g1 years1 = [fcf1] ∧
      pv_list fcf1 g1 wacc years1 = [fcf1 / (1 + wacc) ^ (0.5 : ℝ)]) := by
  refine ⟨?_, ?_, ?_⟩
  · intro n hn hny
    obtain ⟨k, rfl⟩ : ∃ k, n = k + 1 := ⟨n - 1, by omega⟩
    have hk : k < years1.toNat := by omega
    refine ⟨?_, ?_⟩
    · simpa using fcfs_list_getElem? fcf1 g1 years1 hk
    · have hexp : ((k : ℝ) + 1 - 0.5) = (((k + 1 : ℕ) : ℝ) - 0.5) := by
        push_cast; ring
      have h := pv_list_getElem? fcf1 g1 wacc years1 hk
      rw [hexp] at h
      simpa using h
  · exact ⟨_, _, two_stage_valuation_ok fcf1 g1 g2 wacc hy
      (sub_ne_zero.mpr (ne_of_gt hw))⟩
  · rintro rfl
    constructor
    · simp [fcfs_list, List.range_succ]
    · simp [pv_list, List.range_succ]
      norm_num

/-- C2 witness at `fcf1 = 100, g1 = 0, years1 = 1, g2 = 0, wacc = 3`. -/
theorem schedule_entries_correct_witness :
    (0 : ℝ) ≤ 100 ∧ (1 : ℤ) ≤ 1 ∧ (0 : ℝ) < 3 ∧
    (∃ ev pv_tv, two_stage_valuation 100 0 1 0 3 =
        .ok (ev, fcfs_list 100 0 1, pv_list 100 0 3 1, pv_tv)) :=
  ⟨by norm_num, by norm_num, by norm_num,
    (schedule_entries_correct 100 0 1 0 3 (by norm_num) (by norm_num)
      (by norm_num)).2.1⟩

/-- C3: on valid inputs the terminal value is
`fcfAtStage1End * (1 + g2) / (wacc - g2)` with
`fcfAtStage1End = projectedFCF(years1) * (1 + g1)`, discounted with the
mid-year offset `(1 + wacc) ^ (years1 - 0.5)`. -/
theorem terminal_value_correct (fcf1 g1 : ℝ) (years1 : ℤ) (g2 wacc : ℝ)
    (hy : 1 ≤ years1) (hw : g2 < wacc) :
    ∃ ev, two_stage_valuation fcf1 g1 years1 g2 wacc =
      .ok (ev, fcfs_list fcf1 g1 years1, pv_list fcf1 g1 wacc years1,
           fcf1 * (1 + g1) ^ (years1.toNat - 1) * (1 + g1) * (1 + g2) / (wacc - g2)
             / (1 + wacc) ^ ((years1 : ℝ) - 0.5)) :=
  ⟨_, two_stage_valuation_ok fcf1 g1 g2 wacc hy (sub_ne_zero.mpr (ne_of_gt hw))⟩

/-- C3 witness at `fcf1 = 100, g1 = 0, years1 = 1, g2 = 0, wacc = 3`. -/
theorem terminal_value_correct_witness :
    (1 : ℤ) ≤ 1 ∧ (0 : ℝ) < 3 ∧
    (∃ ev, two_stage_valuation 100 0 1 0 3 =
      .ok (ev, fcfs_list 100 0 1, pv_list 100 0 3 1,
           100 * (1 + 0) ^ ((1 : ℤ).toNat - 1) * (1 + 0) * (1 + 0) / (3 - 0)
             / (1 + 3) ^ (((1 : ℤ) : ℝ) - 0.5))) :=
  ⟨by norm_num, by norm_num,
    terminal_value_correct 100 0 1 0 3 (by norm_num) (by norm_num)⟩

/-- C4: on valid inputs the returned enterprise value is exactly the sum
of the schedule's present values plus the discounted terminal value. -/
theorem ev_sum_invariant (fcf1 g1 : ℝ) (years1 : ℤ) (g2 wacc : ℝ)
    (hy : 1 ≤ years1) (hw : g2 < wacc) :
    ∃ pv_tv, two_stage_valuation fcf1 g1 years1 g2 wacc =
      .ok ((pv_list fcf1 g1 wacc years1).sum + pv_tv,
           fcfs_list fcf1 g1 years1, pv_list fcf1 g1 wacc years1, pv_tv) :=
  ⟨_, two_stage_valuation_ok fcf1 g1 g2 wacc hy (sub_ne_zero.mpr (ne_of_gt hw))⟩

/-- C4 witness at `fcf1 = 100, g1 = 0, years1 = 2, g2 = 0, wacc = 3`. -/
theorem ev_sum_invariant_witness :
    (1 : ℤ) ≤ 2 ∧ (0 : ℝ) < 3 ∧
    (∃ pv_tv, two_stage_valuation 100 0 2 0 3 =
      .ok ((pv_list 100 0 3 2).sum + pv_tv,
           fcfs_list 100 0 2, pv_list 100 0 3 2, pv_tv)) :=
  ⟨by norm_num, by norm_num,
    ev_sum_invariant 100 0 2 0 3 (by norm_num) (by norm_num)⟩

/-- C5: the engine performs no input validation of its own.  With the
precondition-violating input `fcf1 = -100` (negative next-year FCF, all
other inputs valid since `wacc = 0 > g2 = -1`) it performs the full
computation and returns an ordinary result, not a structured
`InvalidInput` error; with `years1 = 0` it raises a bare `IndexError`
rather than returning a structured error. -/
theorem no_input_validation :
    two_stage_valuation (-100) 0 1 (-1) 0 = .ok (-100, [-100], [-100], 0) ∧
    two_stage_valuation 100 0 0 0.03 0.15 = .error .indexError := by
  constructor
  · have h1 : ((1 : ℝ) + 0) ^ ((0 : ℝ) + 1 - 0.5) = 1 := by
      norm_num [Real.one_rpow]
    have h2 : ((1 : ℝ) + 0) ^ ((1 : ℤ) - 0.5 : ℝ) = 1 := by
      norm_num [Real.one_rpow]
    simp [two_stage_valuation, fcfs_list, pv_list, List.range_succ, h1, h2]
  · simp [two_stage_valuation, fcfs_list]

/-- C6: the illustrative series has exactly `years1 + 5` entries, entry
`k` (0-based) carries year `k+1` and value `val_at (k+1)`, where the
running value is seeded from the raw `valuation_input` (not from the
engine's enterprise value) and multiplied each year by `1 + g1_pct/100`
through year `years1` and by `1 + g2_pct/100` afterwards. -/
theorem val_series_spec (v0 g1p g2p : ℝ) (years1 : ℤ) (hy : 1 ≤ years1) :
    (val_series v0 g1p g2p years1).length = years1.toNat + 5 ∧
    (∀ k : ℕ, k < years1.toNat + 5 →
      (val_series v0 g1p g2p years1)[k]? =
        some (k + 1, val_at v0 g1p g2p years1 (k + 1))) ∧
    val_at v0 g1p g2p years1 0 = v0 ∧
    (∀ n : ℕ, val_at v0 g1p g2p years1 (n + 1) =
      val_at v0 g1p g2p years1 n *
        (if (n : ℤ) + 1 ≤ years1 then 1 + g1p / 100 else 1 + g2p / 100)) := by
  refine ⟨?_, ?_, rfl, fun n => rfl⟩
  · simp only [val_series, List.length_map, List.length_range]
    omega
  · intro k hk
    have hk5 : k < (years1 + 5).toNat := by omega
    rw [val_series, List.getElem?_map, List.getElem?_range hk5, Option.map_some']

/-- C6 witness at `v0 = 10, g1_pct = 5, g2_pct = 2, years1 = 1`. -/
theorem val_series_spec_witness :
    (1 : ℤ) ≤ 1 ∧ (val_series 10 5 2 1).length = (1 : ℤ).toNat + 5 :=
  ⟨by norm_num, (val_series_spec 10 5 2 1 (by norm_num)).1⟩

lemma one_le_val_factor {g1p g2p : ℝ} (h1 : 0 ≤ g1p) (h2 : 0 ≤ g2p)
    (years1 : ℤ) (n : ℕ) :
    1 ≤ (if (n : ℤ) + 1 ≤ years1 then 1 + g1p / 100 else 1 + g2p / 100) := by
  have hg1 : 0 ≤ g1p / 100 := by positivity
  have hg2 : 0 ≤ g2p / 100 := by positivity
  split <;> linarith

lemma one_lt_val_factor {g1p g2p : ℝ} (h1 : 0 < g1p) (h2 : 0 < g2p)
    (years1 : ℤ) (n : ℕ) :
    1 < (if (n : ℤ) + 1 ≤ years1 then 1 + g1p / 100 else 1 + g2p / 100) := by
  have hg1 : 0 < g1p / 100 := by positivity
  have hg2 : 0 < g2p / 100 := by positivity
  split <;> linarith

lemma val_at_nonneg {v0 g1p g2p : ℝ} (h0 : 0 ≤ v0) (h1 : 0 ≤ g1p)
    (h2 : 0 ≤ g2p) (years1 : ℤ) (n : ℕ) :
    0 ≤ val_at v0 g1p g2p years1 n := by
  induction n with
  | zero => exact h0
  | succ n ih =>
    rw [val_at]
    exact mul_nonneg ih (le_trans zero_le_one (one_le_val_factor h1 h2 years1 n))

lemma val_at_pos {v0 g1p g2p : ℝ} (h0 : 0 < v0) (h1 : 0 < g1p)
    (h2 : 0 < g2p) (years1 : ℤ) (n : ℕ) :
    0 < val_at v0 g1p g2p years1 n := by
  induction n with
  | zero => exact h0
  | succ n ih =>
    rw [val_at]
    exact mul_pos ih
      (lt_trans zero_lt_one (one_lt_val_factor h1 h2 years1 n))

lemma val_at_monotone {v0 g1p g2p : ℝ} (h0 : 0 ≤ v0) (h1 : 0 ≤ g1p)
    (h2 : 0 ≤ g2p) (years1 : ℤ) :
    Monotone (val_at v0 g1p g2p years1) := by
  apply monotone_nat_of_le_succ
  intro n
  rw [val_at]
  exact le_mul_of_one_le_right (val_at_nonneg h0 h1 h2 years1 n)
    (one_le_val_factor h1 h2 years1 n)

lemma val_at_strictMono {v0 g1p g2p : ℝ} (h0 : 0 < v0) (h1 : 0 < g1p)
    (h2 : 0 < g2p) (years1 : ℤ) :
    StrictMono (val_at v0 g1p g2p years1) := by
  apply strictMono_nat_of_lt_succ
  intro n
  rw [val_at]
  exact lt_mul_of_one_lt_right (val_at_pos h0 h1 h2 years1 n)
    (one_lt_val_factor h1 h2 years1 n)

/-- C7 counterexample: with valuation 10 and both growth sliders at their
declared minimum of 0% (inputs the UI accepts), years 1 and 2 of the
illustrative series carry the same valuation 10, so the series is not
strictly increasing. -/
theorem val_series_not_strict_at_zero_growth :
    (val_series 10 0 0 1)[0]? = some (1, 10) ∧
    (val_series 10 0 0 1)[1]? = some (2, 10) ∧
    ¬ ((val_series 10 0 0 1).map Prod.snd).Pairwise (· < ·) := by
  refine ⟨by simp [val_series, val_at], by simp [val_series, val_at], ?_⟩
  intro h
  rw [List.pairwise_iff_getElem] at h
  have h01 := h 0 1 (by simp [val_series]) (by simp [val_series]) (by omega)
  have e0 : ((val_series 10 0 0 1).map Prod.snd)[0]? = some 10 := by
    simp [val_series, val_at]
  have e1 : ((val_series 10 0 0 1).map Prod.snd)[1]? = some 10 := by
    simp [val_series, val_at]
  rw [List.getElem?_eq_getElem (by simp [val_series]), Option.some_inj] at e0 e1
  rw [e0, e1] at h01
  exact lt_irrefl _ h01

/-- C7 amended: under the UI's declared bounds (valuation ≥ 0, growth
sliders from 0%) the illustrative series is non-decreasing in year; it is
strictly increasing when additionally the valuation is positive and both
growth rates are strictly positive. -/
theorem val_series_values_monotone (v0 g1p g2p : ℝ) (years1 : ℤ)
    (h0 : 0 ≤ v0) (h1 : 0 ≤ g1p) (h2 : 0 ≤ g2p) :
    ((val_series v0 g1p g2p years1).map Prod.snd).Pairwise (· ≤ ·) ∧
    (0 < v0 → 0 < g1p → 0 < g2p →
      ((val_series v0 g1p g2p years1).map Prod.snd).Pairwise (· < ·)) := by
  have hmap : (val_series v0 g1p g2p years1).map Prod.snd =
      (List.range (years1 + 5).toNat).map
        (fun k => val_at v0 g1p g2p years1 (k + 1)) := by
    simp [val_series, List.map_map]
  rw [hmap]
  constructor
  · rw [List.pairwise_map]
    exact (List.pairwise_lt_range _).imp
      (fun hab => val_at_monotone h0 h1 h2 years1 (by omega))
  · intro hv hg1 hg2
    rw [List.pairwise_map]
    exact (List.pairwise_lt_range _).imp
      (fun hab => val_at_strictMono hv hg1 hg2 years1 (by omega))

/-- C7 amended witness at `v0 = 10, g1_pct = 5, g2_pct = 2, years1 = 1`. -/
theorem val_series_values_monotone_witness :
    (0 : ℝ) ≤ 10 ∧ (0 : ℝ) ≤ 5 ∧ (0 : ℝ) ≤ 2 ∧
    ((val_series 10 5 2 1).map Prod.snd).Pairwise (· ≤ ·) :=
  ⟨by norm_num, by norm_num, by norm_num,
    (val_series_values_monotone 10 5 2 1 (by norm_num) (by norm_num)
      (by norm_num)).1⟩

/-- C8: on a valid input with `g1 > 0` and `fcf1 > 0`, the list of
projected FCFs returned by the engine is strictly increasing. -/
theorem fcfs_strictly_increasing (fcf1 g1 : ℝ) (years1 : ℤ) (g2 wacc : ℝ)
    (hy : 1 ≤ years1) (hw : g2 < wacc) (hg : 0 < g1) (hf : 0 < fcf1) :
    (fcfs_list fcf1 g1 years1).Pairwise (· < ·) ∧
    (∃ ev pv_tv, two_stage_valuation fcf1 g1 years1 g2 wacc =
      .ok (ev, fcfs_list fcf1 g1 years1, pv_list fcf1 g1 wacc years1, pv_tv)) := by
  constructor
  · rw [fcfs_list, List.pairwise_map]
    refine (List.pairwise_lt_range _).imp (fun hab => ?_)
    exact mul_lt_mul_of_pos_left
      (pow_lt_pow_right₀ (by linarith) hab) hf
  · exact ⟨_, _, two_stage_valuation_ok fcf1 g1 g2 wacc hy
      (sub_ne_zero.mpr (ne_of_gt hw))⟩

/-- C8 witness at `fcf1 = 100, g1 = 1, years1 = 2, g2 = 0, wacc = 3`. -/
theorem fcfs_strictly_increasing_witness :
    (1 : ℤ) ≤ 2 ∧ (0 : ℝ) < 3 ∧ (0 : ℝ) < 1 ∧ (0 : ℝ) < 100 ∧
    (fcfs_list 100 1 2).Pairwise (· < ·) :=
  ⟨by norm_num, by norm_num, by norm_num, by norm_num,
    (fcfs_strictly_increasing 100 1 2 0 3 (by norm_num) (by norm_num)
      (by norm_num) (by norm_num)).1⟩

/-- C9: `share_value` is `valuation * equity_pct / 100`, and
`balance_due` is `max(agreed_price - amount_paid, 0)`, which is never
negative, even when the amount paid exceeds the agreed price. -/
theorem share_and_balance_correct (v e a p : ℝ)
    (hv : 0 ≤ v) (he0 : 0 ≤ e) (he1 : e ≤ 100) (ha : 0 ≤ a) (hp : 0 ≤ p) :
    share_value v e = v * e / 100 ∧
    balance_due a p = max (a - p) 0 ∧
    0 ≤ balance_due a p :=
  ⟨rfl, rfl, le_max_right _ _⟩

/-- C9 witness, with the amount paid (7) exceeding the agreed price (5). -/
theorem share_and_balance_correct_witness :
    ((0 : ℝ) ≤ 10 ∧ (0 : ℝ) ≤ 50 ∧ (50 : ℝ) ≤ 100 ∧ (0 : ℝ) ≤ 5 ∧ (0 : ℝ) ≤ 7) ∧
    (share_value 10 50 = 10 * 50 / 100 ∧
     balance_due 5 7 = max (5 - 7) 0 ∧
     0 ≤ balance_due 5 7) :=
  ⟨by norm_num,
    share_and_balance_correct 10 50 5 7 (by norm_num) (by norm_num)
      (by norm_num) (by norm_num) (by norm_num)⟩

/-- C10: for `years1 >= 1` the `fcfs` list is non-empty (length exactly
`years1`), so the `fcfs[-1]` access cannot raise `IndexError`; for
`years1 <= 0` the loop builds the empty list and `fcfs[-1]` raises an
uncaught `IndexError`. -/
theorem fcfs_last_access_safe (fcf1 g1 : ℝ) (years1 : ℤ) (g2 wacc : ℝ) :
    (1 ≤ years1 →
      (fcfs_list fcf1 g1 years1).length = years1.toNat ∧
      fcfs_list fcf1 g1 years1 ≠ [] ∧
      two_stage_valuation fcf1 g1 years1 g2 wacc ≠ .error .indexError) ∧
    (years1 ≤ 0 →
      fcfs_list fcf1 g1 years1 = [] ∧
      two_stage_valuation fcf1 g1 years1 g2 wacc = .error .indexError) := by
  constructor
  · intro hy
    refine ⟨fcfs_list_length fcf1 g1 years1, ?_, ?_⟩
    · intro hnil
      have := fcfs_list_length fcf1 g1 years1
      rw [hnil] at this
      simp at this
      omega
    · by_cases hwz : wacc - g2 = 0
      · simp [two_stage_valuation, fcfs_list_getLast? fcf1 g1 hy, hwz]
      · simp [two_stage_valuation, fcfs_list_getLast? fcf1 g1 hy, hwz]
  · intro hy
    have ht : years1.toNat = 0 := by omega
    constructor
    · simp [fcfs_list, ht]
    · simp [two_stage_valuation, fcfs_list, ht]

/-- C10 witness: `years1 = 1` gives a singleton list and no `IndexError`;
`years1 = 0` gives the empty list and `IndexError`. -/
theorem fcfs_last_access_safe_witness :
    ((1 : ℤ) ≤ 1 ∧
      (fcfs_list 100 0 1).length = (1 : ℤ).toNat ∧
      fcfs_list 100 0 1 ≠ [] ∧
      two_stage_valuation 100 0 1 0.05 0.2 ≠ .error .indexError) ∧
    ((0 : ℤ) ≤ 0 ∧
      fcfs_list 100 0 0 = [] ∧
      two_stage_valuation 100 0 0 0.05 0.2 = .error .indexError) :=
  ⟨⟨by norm_num, (fcfs_last_access_safe 100 0 1 0.05 0.2).1 (by norm_num)⟩,
   ⟨by norm_num, (fcfs_last_access_safe 100 0 0 0.05 0.2).2 (by norm_num)⟩⟩

end PartnershipSim
